import Mathlib

/-!
Verification of the chessu rewards server (`server/server.js`).

The server is shallowly embedded: JavaScript numbers used as millisecond
timestamps and sat amounts become `Int`; the in-memory rate-limit `Map`
becomes a function `String → Option Int`; JSON response bodies become an
explicit `Json` inductive; the external wallet collaborator (coco-cashu
`Manager`) becomes an oracle recording, for each call the handler may make,
whether that call succeeds or throws, so that each handler is a pure
function from request data, clock, rate-limit state and oracle to an HTTP
status, a body, the new rate-limit state and the list of wallet calls
actually performed.
-/

namespace Chessu

/-- JSON values, used to embed the response bodies built by `res.json(...)`. -/
inductive Json where
  | str : String → Json
  | num : Int → Json
  | bool : Bool → Json
  | arr : List Json → Json
  | obj : List (String × Json) → Json

/-- The field names of a JSON object (empty for non-objects). -/
def Json.fieldNames : Json → List String
  | .obj l => l.map Prod.fst
  | _ => []

/-- Look up a field of a JSON object. -/
def Json.getField (j : Json) (k : String) : Option Json :=
  match j with
  | .obj l => l.lookup k
  | _ => none

/-- The `config` object at the top of `server.js`. -/
structure Config where
  testMint : String
  mainMint : String
  activeMode : String
  puzzleReward : Int
  rateLimitSeconds : Int

/-- The configuration literal in `server.js` (with `ACTIVE_MODE` unset,
so `activeMode` takes its default value `"test"`). -/
def defaultConfig : Config where
  testMint := "https://nofees.testnut.cashu.space"
  mainMint := "https://mint.minibits.cash/Bitcoin"
  activeMode := "test"
  puzzleReward := 10
  rateLimitSeconds := 5

/-- `const activeMint = config.activeMode === 'main' ? config.mainMint : config.testMint`. -/
def activeMint (cfg : Config) : String :=
  if cfg.activeMode = "main" then cfg.mainMint else cfg.testMint

/-- The rate-limit map `rateLimitMap : Map IP -> lastSolveTime`. -/
def RLMap : Type := String → Option Int

/-- `rateLimitMap.set(ip, now)`. -/
def RLMap.set (m : RLMap) (ip : String) (t : Int) : RLMap :=
  fun k => if k = ip then some t else m k

/-- The initial, empty rate-limit map (`new Map()`). -/
def RLMap.empty : RLMap := fun _ => none

/-- Result object of `checkRateLimit`: either `{ allowed: true }` or
`{ allowed: false, message }`.  The embedding also records the local
`secondsRemaining` from which the message is built. -/
inductive RLResult where
  | allowed : RLResult
  | denied : String → Int → RLResult
deriving DecidableEq

/-- `Math.ceil(x / 1000)` for an integer number of milliseconds `x`
(JavaScript real division followed by ceiling). -/
def ceilMsToSec (x : Int) : Int := -((-x) / 1000)

/-- The denial message built at `server.js:50`. -/
def rateLimitMessage (cfg : Config) (secondsRemaining : Int) : String :=
  "⏳ Slow down! You can only solve 1 puzzle every " ++ toString cfg.rateLimitSeconds ++
    " seconds. Try again in " ++ toString secondsRemaining ++ " second" ++
    (if secondsRemaining > 1 then "s" else "") ++ "."

/-- `checkRateLimit(ip)` (`server.js:34-57`), with the ambient mutable map and
the `Date.now()` clock made explicit: returns the map after the call together
with the result object.  The guard `if (!lastSolve)` at `server.js:39` is a
JavaScript falsy test: it is taken both when the map has no entry for the key
and when the stored timestamp is the number 0, so a stored 0 is handled like
an absent entry (record `now` and allow). -/
def checkRateLimit (cfg : Config) (m : RLMap) (ip : String) (now : Int) :
    RLMap × RLResult :=
  let lastSolve := m ip
  let rateLimitMs := cfg.rateLimitSeconds * 1000
  match lastSolve with
  | none => (m.set ip now, .allowed)
  | some t =>
    if t = 0 then (m.set ip now, .allowed)
    else
      let timeSinceLastSolve := now - t
      if timeSinceLastSolve < rateLimitMs then
        let secondsRemaining := ceilMsToSec (rateLimitMs - timeSinceLastSolve)
        (m, .denied (rateLimitMessage cfg secondsRemaining) secondsRemaining)
      else
        (m.set ip now, .allowed)

/-- The hourly cleanup sweep (`server.js:60-68`): delete every entry with
`now - lastSolve > rateLimitMs * 10`. -/
def cleanupSweep (cfg : Config) (m : RLMap) (now : Int) : RLMap :=
  fun ip =>
    match m ip with
    | none => none
    | some lastSolve =>
      if now - lastSolve > cfg.rateLimitSeconds * 1000 * 10 then none else some lastSolve

/-- A record of `easy_puzzles.json`, with the fields the server reads. -/
structure Puzzle where
  id : String
  fen : String
  rating : Int
  solution : List String
  themes : List String

/-- `puzzle.solution.filter((_, index) => index % 2 === 1)` (`server.js:260`):
the user's expected moves are the elements of the canonical solution at odd
0-based indices. -/
def userMovesInSolution (solution : List String) : List String :=
  ((solution.enum.filter (fun p => p.1 % 2 == 1)).map Prod.snd)

/-- `JSON.stringify(moves) === JSON.stringify(userMovesInSolution)`
(`server.js:261`): for arrays of strings, stringify-equality is exactly
list equality. -/
def validateSolution (puzzle : Puzzle) (moves : List String) : Bool :=
  moves == userMovesInSolution puzzle.solution

/-- The wallet calls a handler can perform on the coco-cashu `Manager`. -/
inductive WalletCall where
  | getBalances
  | send
  | receive
  | createMintQuote
  | redeemMintQuote
deriving DecidableEq

/-- The behaviour of the external collaborators during one request: for each
call the handler may make (in program order; `/api/puzzle/solve` calls
`getBalances` twice), whether it throws (`Except.error` with the message)
or returns. Balances objects are association lists mint-URL ↦ sats. -/
structure Oracle where
  getBalances : Except String (List (String × Int))
  send : Except String String
  getBalancesAgain : Except String (List (String × Int))
  receive : Except String Unit
  createMintQuote : Except String (String × String)
  redeemMintQuote : Except String Unit

/-- `balances[activeMint] || 0`. -/
def balanceOf (balances : List (String × Int)) (mint : String) : Int :=
  match balances.lookup mint with
  | some v => v
  | none => 0

/-- Encode a balances object as the JSON the server sends back. -/
def balancesJson (balances : List (String × Int)) : Json :=
  .obj (balances.map (fun p => (p.1, .num p.2)))

/-- An HTTP response: status code and JSON body. -/
structure Response where
  status : Nat
  body : Json

/-- `res.status(s).json({ error: msg })`. -/
def errorResponse (status : Nat) (msg : String) : Response :=
  { status := status, body := .obj [("error", .str msg)] }

/-- `GET /api/balance` (`server.js:127-139`). -/
def balanceHandler (cfg : Config) (orc : Oracle) : Response :=
  match orc.getBalances with
  | .error e => errorResponse 500 e
  | .ok balances =>
    { status := 200
      body := .obj [("balances", balancesJson balances),
                    ("activeMode", .str cfg.activeMode),
                    ("activeMint", .str (activeMint cfg)),
                    ("total", .num (balanceOf balances (activeMint cfg)))] }

/-- `POST /api/receive` (`server.js:167-189`); `token` is the request-body
field, `none` when absent (and the empty string is falsy in `!token`). -/
def receiveHandler (cfg : Config) (orc : Oracle) (token : Option String) : Response :=
  match token with
  | none => errorResponse 400 "Token is required"
  | some t =>
    if t = "" then errorResponse 400 "Token is required"
    else
      match orc.receive with
      | .error e => errorResponse 500 e
      | .ok _ =>
        match orc.getBalances with
        | .error e => errorResponse 500 e
        | .ok balances =>
          { status := 200
            body := .obj [("success", .bool true),
                          ("balance", .num (balanceOf balances (activeMint cfg))),
                          ("message", .str "Tokens received successfully")] }

/-- `POST /api/donate` (`server.js:192-214`); `amount : Option Int` models the
request-body field (`none` when absent; `0` is falsy so `!amount || amount < 1`
rejects exactly `none` and values `< 1`), `qr` the pure QR data-URL encoder. -/
def donateHandler (cfg : Config) (orc : Oracle) (qr : String → String)
    (amount : Option Int) : Response :=
  match amount with
  | none => errorResponse 400 "Amount must be at least 1 sat"
  | some a =>
    if a < 1 then errorResponse 400 "Amount must be at least 1 sat"
    else
      match orc.createMintQuote with
      | .error e => errorResponse 500 e
      | .ok quote =>
        { status := 200
          body := .obj [("quoteId", .str quote.1),
                        ("amount", .num a),
                        ("paymentRequest", .str quote.2),
                        ("qrCode", .str (qr quote.2)),
                        ("mint", .str (activeMint cfg))] }

/-- `GET /api/donate/check/:quoteId` (`server.js:217-233`): redemption failure
is answered with `res.json({ paid: false, error })`, i.e. status 200. -/
def donateCheckHandler (cfg : Config) (orc : Oracle) (_quoteId : String) : Response :=
  match orc.redeemMintQuote with
  | .error e => { status := 200, body := .obj [("paid", .bool false), ("error", .str e)] }
  | .ok _ =>
    match orc.getBalances with
    | .error e => { status := 200, body := .obj [("paid", .bool false), ("error", .str e)] }
    | .ok balances =>
      { status := 200
        body := .obj [("paid", .bool true),
                      ("balance", .num (balanceOf balances (activeMint cfg)))] }

/-- The request body of `POST /api/puzzle/solve`: `puzzleId` is `none` when
absent, `moves` is `none` when absent or not an array. -/
structure SolveBody where
  puzzleId : Option String
  moves : Option (List String)

/-- The `!puzzleId || !moves || !Array.isArray(moves)` shape check at
`server.js:240` (an absent field and the empty string are falsy; a present
array, even empty, is truthy). -/
def invalidSolveBody (b : SolveBody) : Bool :=
  match b.puzzleId, b.moves with
  | some p, some _ => p == ""
  | _, _ => true

/-- Outcome of one `POST /api/puzzle/solve` request: the response, the
rate-limit map after the request, and the wallet calls performed. -/
structure SolveOutcome where
  resp : Response
  rlMap : RLMap
  calls : List WalletCall

/-- `POST /api/puzzle/solve` (`server.js:236-295`), with clock, client key,
rate-limit state, puzzle dataset and collaborators made explicit.  `enc` is
`getEncodedToken` and `qr` is `QRCode.toDataURL`, both pure. -/
def solveHandler (cfg : Config) (puzzlesData : List Puzzle)
    (enc : String → String) (qr : String → String) (orc : Oracle)
    (body : SolveBody) (clientIp : String) (now : Int) (m : RLMap) : SolveOutcome :=
  if invalidSolveBody body then
    { resp := errorResponse 400 "Invalid request. Provide puzzleId and moves array."
      rlMap := m, calls := [] }
  else
    match body.puzzleId, body.moves with
    | some puzzleId, some moves =>
      let rateLimitCheck := checkRateLimit cfg m clientIp now
      match rateLimitCheck.2 with
      | .denied message _ =>
        { resp := errorResponse 429 message, rlMap := rateLimitCheck.1, calls := [] }
      | .allowed =>
        match puzzlesData.find? (fun p => p.id == puzzleId) with
        | none =>
          { resp := errorResponse 400 "Puzzle not found. Please try a new puzzle."
            rlMap := rateLimitCheck.1, calls := [] }
        | some puzzle =>
          if validateSolution puzzle moves = false then
            { resp := errorResponse 400 "Incorrect solution. Try again!"
              rlMap := rateLimitCheck.1, calls := [] }
          else
            match orc.getBalances with
            | .error e =>
              { resp := errorResponse 500 e, rlMap := rateLimitCheck.1
                calls := [.getBalances] }
            | .ok balances =>
              if balanceOf balances (activeMint cfg) < cfg.puzzleReward then
                { resp := errorResponse 503
                    "Insufficient funds in puzzle pot. Please ask someone to donate!"
                  rlMap := rateLimitCheck.1, calls := [.getBalances] }
              else
                match orc.send with
                | .error e =>
                  { resp := errorResponse 500 e, rlMap := rateLimitCheck.1
                    calls := [.getBalances, .send] }
                | .ok token =>
                  let tokenString := enc token
                  let qrCode := qr tokenString
                  match orc.getBalancesAgain with
                  | .error e =>
                    { resp := errorResponse 500 e, rlMap := rateLimitCheck.1
                      calls := [.getBalances, .send, .getBalances] }
                  | .ok newBalance =>
                    { resp :=
                        { status := 200
                          body := .obj [("success", .bool true),
                                        ("reward", .num cfg.puzzleReward),
                                        ("token", .str tokenString),
                                        ("qrCode", .str qrCode),
                                        ("remainingBalance",
                                         .num (balanceOf newBalance (activeMint cfg)))] }
                      rlMap := rateLimitCheck.1
                      calls := [.getBalances, .send, .getBalances] }
    | _, _ =>
      { resp := errorResponse 400 "Invalid request. Provide puzzleId and moves array."
        rlMap := m, calls := [] }

/-- The elements of a list at odd 0-based indices, by direct two-step
recursion (the specification's description of the expected user sequence). -/
def oddIndexElems {α : Type} : List α → List α
  | [] => []
  | [_] => []
  | _ :: b :: t => b :: oddIndexElems t

/-- A collaborator for which every wallet call throws (e.g. mint unreachable). -/
def failingOracle : Oracle where
  getBalances := .error "network error"
  send := .error "network error"
  getBalancesAgain := .error "network error"
  receive := .error "network error"
  createMintQuote := .error "network error"
  redeemMintQuote := .error "network error"

theorem ceilMsToSec_spec (x : Int) :
    1000 * (ceilMsToSec x - 1) < x ∧ x ≤ 1000 * ceilMsToSec x := by
  unfold ceilMsToSec
  omega

theorem checkRateLimit_no_entry (cfg : Config) (m : RLMap) (ip : String) (now : Int)
    (h : m ip = none) :
    checkRateLimit cfg m ip now = (m.set ip now, .allowed) := by
  simp [checkRateLimit, h]

theorem checkRateLimit_zero_entry (cfg : Config) (m : RLMap) (ip : String) (now : Int)
    (h : m ip = some 0) :
    checkRateLimit cfg m ip now = (m.set ip now, .allowed) := by
  simp [checkRateLimit, h]

theorem checkRateLimit_after_cooldown (cfg : Config) (m : RLMap) (ip : String)
    (now t : Int) (h : m ip = some t) (hge : cfg.rateLimitSeconds * 1000 ≤ now - t) :
    checkRateLimit cfg m ip now = (m.set ip now, .allowed) := by
  have hnl : ¬ (now - t < cfg.rateLimitSeconds * 1000) := not_lt.mpr hge
  by_cases ht : t = 0
  · simp [checkRateLimit, h, ht]
  · simp [checkRateLimit, h, ht, hnl]

theorem checkRateLimit_under_cooldown (cfg : Config) (m : RLMap) (ip : String)
    (now t : Int) (h : m ip = some t) (ht : t ≠ 0)
    (hlt : now - t < cfg.rateLimitSeconds * 1000) :
    checkRateLimit cfg m ip now =
      (m, .denied
        (rateLimitMessage cfg (ceilMsToSec (cfg.rateLimitSeconds * 1000 - (now - t))))
        (ceilMsToSec (cfg.rateLimitSeconds * 1000 - (now - t)))) := by
  simp [checkRateLimit, h, ht, hlt]

theorem enumFrom_filter_odd {α : Type} (l : List α) : ∀ n : Nat, n % 2 = 0 →
    ((List.enumFrom n l).filter (fun p => p.1 % 2 == 1)).map Prod.snd = oddIndexElems l := by
  induction l using oddIndexElems.induct with
  | case1 => intro n _; simp [oddIndexElems]
  | case2 a =>
    intro n h
    have h1 : (n % 2 == 1) = false := by simp [h]
    simp [List.enumFrom, oddIndexElems, h1]
  | case3 a b t ih =>
    intro n h
    have h1 : (n % 2 == 1) = false := by simp [h]
    have h2 : ((n + 1) % 2 == 1) = true := by
      have : (n + 1) % 2 = 1 := by omega
      simp [this]
    have h3 : (n + 1 + 1) % 2 = 0 := by omega
    simp [List.enumFrom, oddIndexElems, h1, h2, List.filter_cons, ih (n + 1 + 1) h3]

/-- The server's enum-filter computation of the expected user moves agrees
with the direct odd-index selection. -/
theorem userMovesInSolution_eq_oddIndexElems (solution : List String) :
    userMovesInSolution solution = oddIndexElems solution := by
  unfold userMovesInSolution
  have := enumFrom_filter_odd solution 0 rfl
  simpa [List.enum] using this

/-- C1 counterexample: at a stored timestamp 0 and clock 3000 ms, the limiter
allows and re-records the client (JavaScript `!0` is truthy at `server.js:39`),
whereas the claim predicts denial with 2 seconds remaining. -/
theorem stored_zero_timestamp_is_allowed :
    checkRateLimit defaultConfig (RLMap.empty.set "a" 0) "a" 3000 =
      ((RLMap.empty.set "a" 0).set "a" 3000, .allowed) ∧
    (checkRateLimit defaultConfig (RLMap.empty.set "a" 0) "a" 3000).2 ≠
      .denied (rateLimitMessage defaultConfig 2) 2 := by
  have h := checkRateLimit_zero_entry defaultConfig (RLMap.empty.set "a" 0) "a" 3000
    (by simp [RLMap.set])
  rw [h]
  exact ⟨rfl, by simp⟩

/-- C1 (amended): `checkRateLimit` implements the check-and-record algorithm
with the falsy guard of `server.js:39`: no stored entry, or a stored
timestamp 0 (falsy), → store `now` and allow; a stored timestamp t ≠ 0 with
elapsed ≥ cooldown (rateLimitSeconds·1000 ms) → store `now` and allow; a
stored t ≠ 0 with elapsed < cooldown → deny, without updating the entry,
reporting `s` seconds remaining where `s` is exactly ⌈(cooldown −
elapsed)/1000⌉ (characterized by the two inequalities).  With the configured
5 s cooldown and the clock starting at 1 ms: the first call is allowed, a
call 3000 ms later is denied with 2 seconds remaining, and a call 6000 ms
after the first is allowed. -/
theorem checkRateLimit_meets_spec (m : RLMap) (ip : String) (now : Int) :
    (m ip = none →
      checkRateLimit defaultConfig m ip now = (m.set ip now, .allowed)) ∧
    (m ip = some 0 →
      checkRateLimit defaultConfig m ip now = (m.set ip now, .allowed)) ∧
    (∀ t, m ip = some t → t ≠ 0 → defaultConfig.rateLimitSeconds * 1000 ≤ now - t →
      checkRateLimit defaultConfig m ip now = (m.set ip now, .allowed)) ∧
    (∀ t, m ip = some t → t ≠ 0 → now - t < defaultConfig.rateLimitSeconds * 1000 →
      ∃ s, checkRateLimit defaultConfig m ip now =
          (m, .denied (rateLimitMessage defaultConfig s) s) ∧
        1000 * (s - 1) < defaultConfig.rateLimitSeconds * 1000 - (now - t) ∧
        defaultConfig.rateLimitSeconds * 1000 - (now - t) ≤ 1000 * s) ∧
    (checkRateLimit defaultConfig RLMap.empty ip 1 =
      (RLMap.empty.set ip 1, .allowed)) ∧
    (checkRateLimit defaultConfig (RLMap.empty.set ip 1) ip 3001 =
      (RLMap.empty.set ip 1, .denied (rateLimitMessage defaultConfig 2) 2)) ∧
    (checkRateLimit defaultConfig (RLMap.empty.set ip 1) ip 6001 =
      ((RLMap.empty.set ip 1).set ip 6001, .allowed)) := by
  have hm : (RLMap.empty.set ip 1) ip = some 1 := by simp [RLMap.set]
  refine ⟨fun h => checkRateLimit_no_entry _ _ _ _ h,
          fun h => checkRateLimit_zero_entry _ _ _ _ h,
          fun t h ht hge => checkRateLimit_after_cooldown _ _ _ _ _ h hge,
          fun t h ht hlt => ⟨_, checkRateLimit_under_cooldown _ _ _ _ _ h ht hlt,
            (ceilMsToSec_spec _).1, (ceilMsToSec_spec _).2⟩,
          checkRateLimit_no_entry _ _ _ _ rfl, ?_, ?_⟩
  · have hceil : ceilMsToSec (defaultConfig.rateLimitSeconds * 1000 - (3001 - 1)) = 2 := by
      decide
    rw [checkRateLimit_under_cooldown defaultConfig _ ip 3001 1 hm (by decide) (by decide),
      hceil]
  · exact checkRateLimit_after_cooldown defaultConfig _ ip 6001 1 hm (by decide)

theorem checkRateLimit_meets_spec_witness :
    checkRateLimit defaultConfig RLMap.empty "a" 7 =
      (RLMap.empty.set "a" 7, .allowed) ∧
    checkRateLimit defaultConfig (RLMap.empty.set "a" 0) "a" 1234 =
      ((RLMap.empty.set "a" 0).set "a" 1234, .allowed) ∧
    checkRateLimit defaultConfig (RLMap.empty.set "a" 1) "a" 6001 =
      ((RLMap.empty.set "a" 1).set "a" 6001, .allowed) ∧
    (∃ s, checkRateLimit defaultConfig (RLMap.empty.set "a" 1) "a" 3001 =
        (RLMap.empty.set "a" 1, .denied (rateLimitMessage defaultConfig s) s) ∧
      1000 * (s - 1) < defaultConfig.rateLimitSeconds * 1000 - (3001 - 1) ∧
      defaultConfig.rateLimitSeconds * 1000 - (3001 - 1) ≤ 1000 * s) :=
  ⟨(checkRateLimit_meets_spec RLMap.empty "a" 7).1 rfl,
   (checkRateLimit_meets_spec (RLMap.empty.set "a" 0) "a" 1234).2.1
     (by simp [RLMap.set]),
   (checkRateLimit_meets_spec (RLMap.empty.set "a" 1) "a" 6001).2.2.1 1
     (by simp [RLMap.set]) (by decide) (by decide),
   (checkRateLimit_meets_spec (RLMap.empty.set "a" 1) "a" 3001).2.2.2.1 1
     (by simp [RLMap.set]) (by decide) (by decide)⟩

/-- C2: validation succeeds iff the submitted move list equals, element for
element, the odd-index subsequence of the puzzle's canonical solution; the
expected sequence itself always validates; for the canonical solution
["e7e5","Nf3","Nc6","Bb5"] the expected user sequence is ["Nf3","Bb5"],
submitting ["Nf3","Bb5"] validates true, and ["Nf3","Nb5"] validates false. -/
theorem validateSolution_meets_spec (p : Puzzle) (moves : List String) :
    (validateSolution p moves = true ↔ moves = oddIndexElems p.solution) ∧
    validateSolution p (oddIndexElems p.solution) = true ∧
    (∀ q : Puzzle, q.solution = ["e7e5", "Nf3", "Nc6", "Bb5"] →
      userMovesInSolution q.solution = ["Nf3", "Bb5"] ∧
      validateSolution q ["Nf3", "Bb5"] = true ∧
      validateSolution q ["Nf3", "Nb5"] = false) := by
  refine ⟨?_, ?_, ?_⟩
  · simp [validateSolution, userMovesInSolution_eq_oddIndexElems]
  · simp [validateSolution, userMovesInSolution_eq_oddIndexElems]
  · intro q hq
    refine ⟨?_, ?_, ?_⟩ <;> simp only [validateSolution, hq] <;> decide

theorem validateSolution_meets_spec_witness :
    userMovesInSolution (Puzzle.mk "p1" "f" 1000 ["e7e5", "Nf3", "Nc6", "Bb5"] []).solution =
      ["Nf3", "Bb5"] ∧
    validateSolution (Puzzle.mk "p1" "f" 1000 ["e7e5", "Nf3", "Nc6", "Bb5"] [])
      ["Nf3", "Bb5"] = true ∧
    validateSolution (Puzzle.mk "p1" "f" 1000 ["e7e5", "Nf3", "Nc6", "Bb5"] [])
      ["Nf3", "Nb5"] = false :=
  (validateSolution_meets_spec (Puzzle.mk "p1" "f" 1000 ["e7e5", "Nf3", "Nc6", "Bb5"] [])
      []).2.2 (Puzzle.mk "p1" "f" 1000 ["e7e5", "Nf3", "Nc6", "Bb5"] []) rfl

/-- C6: the sweep deletes exactly the entries older than 10× the cooldown
(it keeps an entry of age exactly or below the bound, with its timestamp
intact), and a client whose entry was deleted is handled as first-ever on
its next attempt: allowed immediately, with the new timestamp stored. -/
theorem cleanupSweep_meets_spec (cfg : Config) (m : RLMap) (now : Int) (ip : String) :
    (cleanupSweep cfg m now ip = none ↔
      m ip = none ∨ ∃ t, m ip = some t ∧ now - t > cfg.rateLimitSeconds * 1000 * 10) ∧
    (∀ t, m ip = some t → now - t ≤ cfg.rateLimitSeconds * 1000 * 10 →
      cleanupSweep cfg m now ip = some t) ∧
    (∀ t, m ip = some t → now - t > cfg.rateLimitSeconds * 1000 * 10 →
      ∀ later : Int, checkRateLimit cfg (cleanupSweep cfg m now) ip later =
        ((cleanupSweep cfg m now).set ip later, .allowed)) := by
  refine ⟨?_, ?_, ?_⟩
  · rcases hm : m ip with _ | t
    · simp [cleanupSweep, hm]
    · by_cases h : now - t > cfg.rateLimitSeconds * 1000 * 10
      · simp [cleanupSweep, hm, h]
      · simp [cleanupSweep, hm, h]
  · intro t hm hle
    have h : ¬ (now - t > cfg.rateLimitSeconds * 1000 * 10) := not_lt.mpr hle
    simp [cleanupSweep, hm, h]
  · intro t hm hgt later
    have hnone : cleanupSweep cfg m now ip = none := by simp [cleanupSweep, hm, hgt]
    exact checkRateLimit_no_entry cfg _ ip later hnone

theorem cleanupSweep_meets_spec_witness :
    (cleanupSweep defaultConfig (RLMap.empty.set "a" 0) 60000 "a" = none ↔
      (RLMap.empty.set "a" 0) "a" = none ∨
      ∃ t, (RLMap.empty.set "a" 0) "a" = some t ∧
        60000 - t > defaultConfig.rateLimitSeconds * 1000 * 10) ∧
    cleanupSweep defaultConfig (RLMap.empty.set "a" 0) 50000 "a" = some 0 ∧
    checkRateLimit defaultConfig (cleanupSweep defaultConfig (RLMap.empty.set "a" 0) 60000)
        "a" 60001 =
      ((cleanupSweep defaultConfig (RLMap.empty.set "a" 0) 60000).set "a" 60001, .allowed) :=
  ⟨(cleanupSweep_meets_spec defaultConfig (RLMap.empty.set "a" 0) 60000 "a").1,
   (cleanupSweep_meets_spec defaultConfig (RLMap.empty.set "a" 0) 50000 "a").2.1 0
     (by simp [RLMap.set]) (by decide),
   (cleanupSweep_meets_spec defaultConfig (RLMap.empty.set "a" 0) 60000 "a").2.2 0
     (by simp [RLMap.set]) (by decide) 60001⟩

/-- C9: running the sweep first never changes the check-and-record result a
client observes: an entry the sweep deletes is old enough that the check
would have allowed the attempt anyway, and kept entries are unchanged. -/
theorem cleanupSweep_transparent_to_checkRateLimit (m : RLMap) (ip : String) (now : Int) :
    (checkRateLimit defaultConfig (cleanupSweep defaultConfig m now) ip now).2 =
      (checkRateLimit defaultConfig m ip now).2 := by
  rcases hm : m ip with _ | t
  · have h1 : cleanupSweep defaultConfig m now ip = none := by simp [cleanupSweep, hm]
    rw [checkRateLimit_no_entry _ _ _ _ h1, checkRateLimit_no_entry _ _ _ _ hm]
  · by_cases h : now - t > defaultConfig.rateLimitSeconds * 1000 * 10
    · have h1 : cleanupSweep defaultConfig m now ip = none := by simp [cleanupSweep, hm, h]
      have hge : defaultConfig.rateLimitSeconds * 1000 ≤ now - t := by
        have h5 : defaultConfig.rateLimitSeconds = 5 := rfl
        rw [h5] at h ⊢
        omega
      rw [checkRateLimit_no_entry _ _ _ _ h1,
        checkRateLimit_after_cooldown _ _ _ _ _ hm hge]
    · have h1 : cleanupSweep defaultConfig m now ip = some t := by simp [cleanupSweep, hm, h]
      by_cases ht : t = 0
      · subst ht
        rw [checkRateLimit_zero_entry _ _ _ _ h1, checkRateLimit_zero_entry _ _ _ _ hm]
      · by_cases hlt : now - t < defaultConfig.rateLimitSeconds * 1000
        · rw [checkRateLimit_under_cooldown _ _ _ _ _ h1 ht hlt,
            checkRateLimit_under_cooldown _ _ _ _ _ hm ht hlt]
        · rw [checkRateLimit_after_cooldown _ _ _ _ _ h1 (not_lt.mp hlt),
            checkRateLimit_after_cooldown _ _ _ _ _ hm (not_lt.mp hlt)]

theorem checkRateLimit_allowed_map (cfg : Config) (m : RLMap) (ip : String) (now : Int)
    (h : (checkRateLimit cfg m ip now).2 = .allowed) :
    (checkRateLimit cfg m ip now).1 = m.set ip now := by
  rcases hm : m ip with _ | t
  · rw [checkRateLimit_no_entry _ _ _ _ hm]
  · by_cases ht : t = 0
    · subst ht
      rw [checkRateLimit_zero_entry _ _ _ _ hm]
    · by_cases hlt : now - t < cfg.rateLimitSeconds * 1000
      · rw [checkRateLimit_under_cooldown _ _ _ _ _ hm ht hlt] at h
        exact absurd h (by simp)
      · rw [checkRateLimit_after_cooldown _ _ _ _ _ hm (not_lt.mp hlt)]

/-- For a well-formed body, the rate-limit map after the solve request is
exactly the map left by `checkRateLimit`, on every control path. -/
theorem solveHandler_rlMap (cfg : Config) (pz : List Puzzle) (enc qr : String → String)
    (orc : Oracle) (pid : String) (mv : List String) (ip : String) (now : Int) (m : RLMap)
    (hpid : (pid == "") = false) :
    (solveHandler cfg pz enc qr orc ⟨some pid, some mv⟩ ip now m).rlMap =
      (checkRateLimit cfg m ip now).1 := by
  have hinv : invalidSolveBody ⟨some pid, some mv⟩ = false := hpid
  unfold solveHandler
  simp only [hinv, Bool.false_eq_true, if_false]
  rcases hrc : checkRateLimit cfg m ip now with ⟨m2, r⟩
  dsimp only
  cases r with
  | denied msg s => rfl
  | allowed =>
    dsimp only
    cases hfind : pz.find? (fun p => p.id == pid) with
    | none => rfl
    | some puzzle =>
      dsimp only
      cases hval : validateSolution puzzle mv with
      | false => rfl
      | true =>
        rw [if_neg (by decide : ¬ (true = false))]
        cases hb : orc.getBalances with
        | error e => rfl
        | ok balances =>
          dsimp only
          by_cases hlow : balanceOf balances (activeMint cfg) < cfg.puzzleReward
          · rw [if_pos hlow]
          · rw [if_neg hlow]
            cases hs : orc.send with
            | error e => rfl
            | ok token =>
              cases hba : orc.getBalancesAgain with
              | error e => rfl
              | ok nb => rfl

/-- C5: for a well-formed solve request that passes the rate limiter, the
client's timestamp is recorded by the check itself: for every oracle, puzzle
dataset and move list — correct, incorrect or referencing an unknown puzzle —
the map after the request is exactly `m.set ip now`, with the entry for the
client holding the check-time clock value. -/
theorem solve_records_attempt_at_check_time (cfg : Config) (pz : List Puzzle)
    (enc qr : String → String) (orc : Oracle) (pid : String) (mv : List String)
    (ip : String) (now : Int) (m : RLMap)
    (hpid : (pid == "") = false)
    (hall : (checkRateLimit cfg m ip now).2 = .allowed) :
    (solveHandler cfg pz enc qr orc ⟨some pid, some mv⟩ ip now m).rlMap = m.set ip now ∧
    (solveHandler cfg pz enc qr orc ⟨some pid, some mv⟩ ip now m).rlMap ip = some now := by
  have h1 := solveHandler_rlMap cfg pz enc qr orc pid mv ip now m hpid
  have h2 := checkRateLimit_allowed_map cfg m ip now hall
  rw [h1, h2]
  exact ⟨rfl, by simp [RLMap.set]⟩

theorem solve_records_attempt_at_check_time_witness :
    (solveHandler defaultConfig [] id id ⟨.ok [], .ok "", .ok [], .ok (), .ok ("", ""), .ok ()⟩
        ⟨some "p", some []⟩ "a" 0 RLMap.empty).rlMap = RLMap.empty.set "a" 0 ∧
    (solveHandler defaultConfig [] id id ⟨.ok [], .ok "", .ok [], .ok (), .ok ("", ""), .ok ()⟩
        ⟨some "p", some []⟩ "a" 0 RLMap.empty).rlMap "a" = some 0 :=
  solve_records_attempt_at_check_time defaultConfig [] id id
    ⟨.ok [], .ok "", .ok [], .ok (), .ok ("", ""), .ok ()⟩ "p" [] "a" 0 RLMap.empty rfl rfl

/-- C8: a solve request whose body misses `puzzleId` or whose `moves` is
missing or not an array is answered 400, the rate-limit map is returned
unchanged (no entry created or updated), and no wallet call happens: the
shape check runs before the rate limiter is consulted. -/
theorem malformed_solve_leaves_rate_limit_map (cfg : Config) (pz : List Puzzle)
    (enc qr : String → String) (orc : Oracle) (body : SolveBody) (ip : String)
    (now : Int) (m : RLMap)
    (h : body.puzzleId = none ∨ body.moves = none) :
    solveHandler cfg pz enc qr orc body ip now m =
      ⟨errorResponse 400 "Invalid request. Provide puzzleId and moves array.", m, []⟩ := by
  have h' : invalidSolveBody body = true := by
    rcases body with ⟨p, mvs⟩
    rcases h with h | h
    · simp only at h
      subst h
      cases mvs <;> rfl
    · simp only at h
      subst h
      cases p <;> rfl
  unfold solveHandler
  rw [if_pos h']

theorem malformed_solve_leaves_rate_limit_map_witness :
    solveHandler defaultConfig [] id id ⟨.ok [], .ok "", .ok [], .ok (), .ok ("", ""), .ok ()⟩
        ⟨none, some ["e2e4"]⟩ "a" 0 RLMap.empty =
      ⟨errorResponse 400 "Invalid request. Provide puzzleId and moves array.",
       RLMap.empty, []⟩ :=
  malformed_solve_leaves_rate_limit_map defaultConfig [] id id
    ⟨.ok [], .ok "", .ok [], .ok (), .ok ("", ""), .ok ()⟩
    ⟨none, some ["e2e4"]⟩ "a" 0 RLMap.empty (Or.inl rfl)

/-- C4 counterexample: a solve request with a stored timestamp 1 ms and clock
3001 ms is rate-limited — the response has status 429 and its body has an
`error` field but no `retryAfterSeconds` field, contradicting the claim that
the body contains both. -/
theorem rate_limited_response_lacks_retry_field :
    (solveHandler defaultConfig [] id id ⟨.ok [], .ok "", .ok [], .ok (), .ok ("", ""), .ok ()⟩
        ⟨some "p", some []⟩ "a" 3001 (RLMap.empty.set "a" 1)).resp.status = 429 ∧
    "error" ∈ (solveHandler defaultConfig [] id id
        ⟨.ok [], .ok "", .ok [], .ok (), .ok ("", ""), .ok ()⟩
        ⟨some "p", some []⟩ "a" 3001 (RLMap.empty.set "a" 1)).resp.body.fieldNames ∧
    "retryAfterSeconds" ∉ (solveHandler defaultConfig [] id id
        ⟨.ok [], .ok "", .ok [], .ok (), .ok ("", ""), .ok ()⟩
        ⟨some "p", some []⟩ "a" 3001 (RLMap.empty.set "a" 1)).resp.body.fieldNames := by
  refine ⟨rfl, ?_, ?_⟩ <;> decide

/-- C4 (amended): a solve request denied by the rate limiter (which requires a
stored, non-falsy timestamp t ≠ 0 within the cooldown) is answered 429 with a
body holding a single `error` field (there is no `retryAfterSeconds` field;
the figure is interpolated into the message instead), and the
seconds-remaining value the limiter computes is a positive integer no greater
than the configured cooldown in seconds. -/
theorem rate_limited_solve_response (cfg : Config) (pz : List Puzzle)
    (enc qr : String → String) (orc : Oracle) (pid : String) (mv : List String)
    (ip : String) (now t : Int) (m : RLMap)
    (hpid : (pid == "") = false) (hmt : m ip = some t) (ht : t ≠ 0) (hmon : t ≤ now)
    (hlt : now - t < cfg.rateLimitSeconds * 1000) :
    ∃ s, solveHandler cfg pz enc qr orc ⟨some pid, some mv⟩ ip now m =
        ⟨{ status := 429, body := .obj [("error", .str (rateLimitMessage cfg s))] }, m, []⟩ ∧
      1 ≤ s ∧ s ≤ cfg.rateLimitSeconds := by
  refine ⟨ceilMsToSec (cfg.rateLimitSeconds * 1000 - (now - t)), ?_, ?_, ?_⟩
  · have hrc := checkRateLimit_under_cooldown cfg m ip now t hmt ht hlt
    unfold solveHandler
    rw [if_neg (by simp [(show invalidSolveBody ⟨some pid, some mv⟩ = false from hpid)]), hrc]
    rfl
  · have h2 := (ceilMsToSec_spec (cfg.rateLimitSeconds * 1000 - (now - t))).2
    omega
  · have h1 := (ceilMsToSec_spec (cfg.rateLimitSeconds * 1000 - (now - t))).1
    omega

theorem rate_limited_solve_response_witness :
    ∃ s, solveHandler defaultConfig [] id id
        ⟨.ok [], .ok "", .ok [], .ok (), .ok ("", ""), .ok ()⟩
        ⟨some "p", some []⟩ "a" 3001 (RLMap.empty.set "a" 1) =
        ⟨{ status := 429,
           body := .obj [("error", .str (rateLimitMessage defaultConfig s))] },
         RLMap.empty.set "a" 1, []⟩ ∧
      1 ≤ s ∧ s ≤ defaultConfig.rateLimitSeconds :=
  rate_limited_solve_response defaultConfig [] id id
    ⟨.ok [], .ok "", .ok [], .ok (), .ok ("", ""), .ok ()⟩ "p" [] "a" 3001 1
    (RLMap.empty.set "a" 1) rfl (by simp [RLMap.set]) (by decide) (by decide) (by decide)

/-- C3: a solve request carrying a correct solution, with the active-mint
balance strictly below the reward, is answered 503 with an error body; the
only wallet call performed is the balance read, so `send` is never invoked
and no balance is mutated by the request. -/
theorem insufficient_pot_returns_503 (cfg : Config) (pz : List Puzzle)
    (enc qr : String → String) (orc : Oracle) (pid : String) (mv : List String)
    (ip : String) (now : Int) (m : RLMap) (puzzle : Puzzle)
    (balances : List (String × Int))
    (hpid : (pid == "") = false)
    (hall : (checkRateLimit cfg m ip now).2 = .allowed)
    (hfind : pz.find? (fun p => p.id == pid) = some puzzle)
    (hval : validateSolution puzzle mv = true)
    (hb : orc.getBalances = .ok balances)
    (hlow : balanceOf balances (activeMint cfg) < cfg.puzzleReward) :
    (solveHandler cfg pz enc qr orc ⟨some pid, some mv⟩ ip now m).resp =
      errorResponse 503 "Insufficient funds in puzzle pot. Please ask someone to donate!" ∧
    (solveHandler cfg pz enc qr orc ⟨some pid, some mv⟩ ip now m).resp.status = 503 ∧
    (solveHandler cfg pz enc qr orc ⟨some pid, some mv⟩ ip now m).calls =
      [WalletCall.getBalances] ∧
    WalletCall.send ∉ (solveHandler cfg pz enc qr orc ⟨some pid, some mv⟩ ip now m).calls := by
  have key : solveHandler cfg pz enc qr orc ⟨some pid, some mv⟩ ip now m =
      ⟨errorResponse 503 "Insufficient funds in puzzle pot. Please ask someone to donate!",
       (checkRateLimit cfg m ip now).1, [WalletCall.getBalances]⟩ := by
    unfold solveHandler
    rw [if_neg (by simp [(show invalidSolveBody ⟨some pid, some mv⟩ = false from hpid)])]
    rcases hrc : checkRateLimit cfg m ip now with ⟨m2, r⟩
    rw [hrc] at hall
    dsimp only at hall
    subst hall
    dsimp only
    rw [hfind]
    dsimp only
    rw [if_neg (by simp [hval]), hb]
    dsimp only
    rw [if_pos hlow]
  rw [key]
  exact ⟨rfl, rfl, rfl, by simp⟩

theorem insufficient_pot_returns_503_witness :
    (solveHandler defaultConfig [Puzzle.mk "p" "f" 900 ["e7e5", "Nf3"] []] id id
        ⟨.ok [("https://nofees.testnut.cashu.space", 5)], .ok "", .ok [], .ok (),
         .ok ("", ""), .ok ()⟩
        ⟨some "p", some ["Nf3"]⟩ "a" 0 RLMap.empty).resp =
      errorResponse 503 "Insufficient funds in puzzle pot. Please ask someone to donate!" ∧
    (solveHandler defaultConfig [Puzzle.mk "p" "f" 900 ["e7e5", "Nf3"] []] id id
        ⟨.ok [("https://nofees.testnut.cashu.space", 5)], .ok "", .ok [], .ok (),
         .ok ("", ""), .ok ()⟩
        ⟨some "p", some ["Nf3"]⟩ "a" 0 RLMap.empty).resp.status = 503 ∧
    (solveHandler defaultConfig [Puzzle.mk "p" "f" 900 ["e7e5", "Nf3"] []] id id
        ⟨.ok [("https://nofees.testnut.cashu.space", 5)], .ok "", .ok [], .ok (),
         .ok ("", ""), .ok ()⟩
        ⟨some "p", some ["Nf3"]⟩ "a" 0 RLMap.empty).calls = [WalletCall.getBalances] ∧
    WalletCall.send ∉ (solveHandler defaultConfig [Puzzle.mk "p" "f" 900 ["e7e5", "Nf3"] []]
        id id
        ⟨.ok [("https://nofees.testnut.cashu.space", 5)], .ok "", .ok [], .ok (),
         .ok ("", ""), .ok ()⟩
        ⟨some "p", some ["Nf3"]⟩ "a" 0 RLMap.empty).calls :=
  insufficient_pot_returns_503 defaultConfig [Puzzle.mk "p" "f" 900 ["e7e5", "Nf3"] []]
    id id
    ⟨.ok [("https://nofees.testnut.cashu.space", 5)], .ok "", .ok [], .ok (),
     .ok ("", ""), .ok ()⟩
    "p" ["Nf3"] "a" 0 RLMap.empty (Puzzle.mk "p" "f" 900 ["e7e5", "Nf3"] [])
    [("https://nofees.testnut.cashu.space", 5)] rfl rfl rfl (by decide) rfl (by decide)

/-- Once a well-formed, rate-limit-passing, correct solve request reaches the
wallet phase, the outcome is determined by the collaborator call results. -/
theorem solveHandler_wallet_phase (cfg : Config) (pz : List Puzzle)
    (enc qr : String → String) (orc : Oracle) (pid : String) (mv : List String)
    (ip : String) (now : Int) (m : RLMap) (puzzle : Puzzle)
    (hpid : (pid == "") = false)
    (hall : (checkRateLimit cfg m ip now).2 = .allowed)
    (hfind : pz.find? (fun p => p.id == pid) = some puzzle)
    (hval : validateSolution puzzle mv = true) :
    solveHandler cfg pz enc qr orc ⟨some pid, some mv⟩ ip now m =
      (match orc.getBalances with
       | .error e =>
         ⟨errorResponse 500 e, (checkRateLimit cfg m ip now).1, [.getBalances]⟩
       | .ok balances =>
         if balanceOf balances (activeMint cfg) < cfg.puzzleReward then
           ⟨errorResponse 503 "Insufficient funds in puzzle pot. Please ask someone to donate!",
            (checkRateLimit cfg m ip now).1, [.getBalances]⟩
         else
           match orc.send with
           | .error e =>
             ⟨errorResponse 500 e, (checkRateLimit cfg m ip now).1,
              [.getBalances, .send]⟩
           | .ok token =>
             match orc.getBalancesAgain with
             | .error e =>
               ⟨errorResponse 500 e, (checkRateLimit cfg m ip now).1,
                [.getBalances, .send, .getBalances]⟩
             | .ok newBalance =>
               ⟨{ status := 200,
                  body := .obj [("success", .bool true),
                                ("reward", .num cfg.puzzleReward),
                                ("token", .str (enc token)),
                                ("qrCode", .str (qr (enc token))),
                                ("remainingBalance",
                                 .num (balanceOf newBalance (activeMint cfg)))] },
                (checkRateLimit cfg m ip now).1,
                [.getBalances, .send, .getBalances]⟩) := by
  unfold solveHandler
  rw [if_neg (by simp [(show invalidSolveBody ⟨some pid, some mv⟩ = false from hpid)])]
  rcases hrc : checkRateLimit cfg m ip now with ⟨m2, r⟩
  rw [hrc] at hall
  dsimp only at hall
  subst hall
  dsimp only
  rw [hfind]
  dsimp only
  rw [if_neg (by simp [hval])]

/-- C7 counterexample: on `GET /api/donate/check/:quoteId` a collaborator
failure is answered with status 200 (body `{ paid: false, error }`), not 500,
refuting the claim that no collaborator failure maps to a non-500 status. -/
theorem donate_check_maps_wallet_failure_to_200 :
    donateCheckHandler defaultConfig failingOracle "q1" =
      { status := 200,
        body := .obj [("paid", .bool false), ("error", .str "network error")] } ∧
    (donateCheckHandler defaultConfig failingOracle "q1").status ≠ 500 :=
  ⟨rfl, by decide⟩

/-- C7 (amended): every collaborator failure is caught at the HTTP boundary
and translated into a JSON body carrying an `error` field; the status is 500
on `/api/balance`, `/api/receive`, `/api/donate` and `/api/puzzle/solve`
(at each of its wallet calls: the balance read, the send, and the re-read),
but on `/api/donate/check` the catch clause answers 200 with
`{ paid: false, error }`, treating any redemption failure as not-yet-paid. -/
theorem collaborator_failures_caught (cfg : Config) (orc : Oracle) (e : String) :
    (orc.getBalances = .error e → balanceHandler cfg orc = errorResponse 500 e) ∧
    (∀ t : String, ¬ t = "" → orc.receive = .error e →
      receiveHandler cfg orc (some t) = errorResponse 500 e) ∧
    (∀ t : String, ¬ t = "" → orc.receive = .ok () → orc.getBalances = .error e →
      receiveHandler cfg orc (some t) = errorResponse 500 e) ∧
    (∀ (qr : String → String) (a : Int), ¬ a < 1 → orc.createMintQuote = .error e →
      donateHandler cfg orc qr (some a) = errorResponse 500 e) ∧
    (∀ q : String, orc.redeemMintQuote = .error e →
      donateCheckHandler cfg orc q =
        { status := 200, body := .obj [("paid", .bool false), ("error", .str e)] }) ∧
    (∀ q : String, orc.redeemMintQuote = .ok () → orc.getBalances = .error e →
      donateCheckHandler cfg orc q =
        { status := 200, body := .obj [("paid", .bool false), ("error", .str e)] }) ∧
    (∀ (pz : List Puzzle) (enc qr : String → String) (pid : String) (mv : List String)
        (ip : String) (now : Int) (m : RLMap) (puzzle : Puzzle),
      (pid == "") = false →
      (checkRateLimit cfg m ip now).2 = .allowed →
      pz.find? (fun p => p.id == pid) = some puzzle →
      validateSolution puzzle mv = true →
      (orc.getBalances = .error e →
        (solveHandler cfg pz enc qr orc ⟨some pid, some mv⟩ ip now m).resp =
          errorResponse 500 e) ∧
      (∀ balances, orc.getBalances = .ok balances →
        ¬ balanceOf balances (activeMint cfg) < cfg.puzzleReward →
        orc.send = .error e →
        (solveHandler cfg pz enc qr orc ⟨some pid, some mv⟩ ip now m).resp =
          errorResponse 500 e) ∧
      (∀ balances tok, orc.getBalances = .ok balances →
        ¬ balanceOf balances (activeMint cfg) < cfg.puzzleReward →
        orc.send = .ok tok → orc.getBalancesAgain = .error e →
        (solveHandler cfg pz enc qr orc ⟨some pid, some mv⟩ ip now m).resp =
          errorResponse 500 e)) := by
  refine ⟨?_, ?_, ?_, ?_, ?_, ?_, ?_⟩
  · intro hb
    unfold balanceHandler
    rw [hb]
  · intro t ht hr
    unfold receiveHandler
    dsimp only
    rw [if_neg ht, hr]
  · intro t ht hr hb
    unfold receiveHandler
    dsimp only
    rw [if_neg ht, hr]
    dsimp only
    rw [hb]
  · intro qr a ha hq
    unfold donateHandler
    dsimp only
    rw [if_neg ha, hq]
  · intro q hq
    unfold donateCheckHandler
    rw [hq]
  · intro q hq hb
    unfold donateCheckHandler
    rw [hq]
    dsimp only
    rw [hb]
  · intro pz enc qr pid mv ip now m puzzle hpid hall hfind hval
    have hph := solveHandler_wallet_phase cfg pz enc qr orc pid mv ip now m puzzle
      hpid hall hfind hval
    refine ⟨?_, ?_, ?_⟩
    · intro hb
      rw [hph, hb]
    · intro balances hb hge hs
      rw [hph, hb]
      dsimp only
      rw [if_neg hge, hs]
    · intro balances tok hb hge hs hba
      rw [hph, hb]
      dsimp only
      rw [if_neg hge, hs]
      dsimp only
      rw [hba]

theorem collaborator_failures_caught_witness :
    balanceHandler defaultConfig failingOracle = errorResponse 500 "network error" ∧
    receiveHandler defaultConfig failingOracle (some "tok") =
      errorResponse 500 "network error" ∧
    receiveHandler defaultConfig
        ⟨.error "network error", .ok "", .ok [], .ok (), .ok ("", ""), .ok ()⟩
        (some "tok") = errorResponse 500 "network error" ∧
    donateHandler defaultConfig failingOracle id (some 5) =
      errorResponse 500 "network error" ∧
    donateCheckHandler defaultConfig failingOracle "q1" =
      { status := 200,
        body := .obj [("paid", .bool false), ("error", .str "network error")] } ∧
    donateCheckHandler defaultConfig
        ⟨.error "network error", .ok "", .ok [], .ok (), .ok ("", ""), .ok ()⟩ "q1" =
      { status := 200,
        body := .obj [("paid", .bool false), ("error", .str "network error")] } ∧
    (solveHandler defaultConfig [Puzzle.mk "p" "f" 900 ["e7e5", "Nf3"] []] id id
        failingOracle ⟨some "p", some ["Nf3"]⟩ "a" 0 RLMap.empty).resp =
      errorResponse 500 "network error" ∧
    (solveHandler defaultConfig [Puzzle.mk "p" "f" 900 ["e7e5", "Nf3"] []] id id
        ⟨.ok [("https://nofees.testnut.cashu.space", 100)], .error "network error",
         .ok [], .ok (), .ok ("", ""), .ok ()⟩
        ⟨some "p", some ["Nf3"]⟩ "a" 0 RLMap.empty).resp =
      errorResponse 500 "network error" ∧
    (solveHandler defaultConfig [Puzzle.mk "p" "f" 900 ["e7e5", "Nf3"] []] id id
        ⟨.ok [("https://nofees.testnut.cashu.space", 100)], .ok "tok",
         .error "network error", .ok (), .ok ("", ""), .ok ()⟩
        ⟨some "p", some ["Nf3"]⟩ "a" 0 RLMap.empty).resp =
      errorResponse 500 "network error" :=
  ⟨(collaborator_failures_caught defaultConfig failingOracle "network error").1 rfl,
   (collaborator_failures_caught defaultConfig failingOracle "network error").2.1
     "tok" (by decide) rfl,
   (collaborator_failures_caught defaultConfig
       ⟨.error "network error", .ok "", .ok [], .ok (), .ok ("", ""), .ok ()⟩
       "network error").2.2.1 "tok" (by decide) rfl rfl,
   (collaborator_failures_caught defaultConfig failingOracle "network error").2.2.2.1
     id 5 (by decide) rfl,
   (collaborator_failures_caught defaultConfig failingOracle "network error").2.2.2.2.1
     "q1" rfl,
   (collaborator_failures_caught defaultConfig
       ⟨.error "network error", .ok "", .ok [], .ok (), .ok ("", ""), .ok ()⟩
       "network error").2.2.2.2.2.1 "q1" rfl rfl,
   ((collaborator_failures_caught defaultConfig failingOracle "network error").2.2.2.2.2.2
       [Puzzle.mk "p" "f" 900 ["e7e5", "Nf3"] []] id id "p" ["Nf3"] "a" 0 RLMap.empty
       (Puzzle.mk "p" "f" 900 ["e7e5", "Nf3"] []) rfl rfl rfl (by decide)).1 rfl,
   ((collaborator_failures_caught defaultConfig
       ⟨.ok [("https://nofees.testnut.cashu.space", 100)], .error "network error",
        .ok [], .ok (), .ok ("", ""), .ok ()⟩ "network error").2.2.2.2.2.2
       [Puzzle.mk "p" "f" 900 ["e7e5", "Nf3"] []] id id "p" ["Nf3"] "a" 0 RLMap.empty
       (Puzzle.mk "p" "f" 900 ["e7e5", "Nf3"] []) rfl rfl rfl (by decide)).2.1
     [("https://nofees.testnut.cashu.space", 100)] rfl (by decide) rfl,
   ((collaborator_failures_caught defaultConfig
       ⟨.ok [("https://nofees.testnut.cashu.space", 100)], .ok "tok",
        .error "network error", .ok (), .ok ("", ""), .ok ()⟩ "network error").2.2.2.2.2.2
       [Puzzle.mk "p" "f" 900 ["e7e5", "Nf3"] []] id id "p" ["Nf3"] "a" 0 RLMap.empty
       (Puzzle.mk "p" "f" 900 ["e7e5", "Nf3"] []) rfl rfl rfl (by decide)).2.2
     [("https://nofees.testnut.cashu.space", 100)] "tok" rfl (by decide) rfl rfl⟩

/-- C10: the `total` field of the balance endpoint is the active mint's
balance (0 when that mint is absent), not the sum over all mints: with
balances test-mint ↦ 5 and main-mint ↦ 7, the endpoint reports total 5 even
though the per-mint map sums to 12. -/
theorem balance_total_is_active_mint_balance (cfg : Config) (orc : Oracle)
    (balances : List (String × Int)) (h : orc.getBalances = .ok balances) :
    (balanceHandler cfg orc).body.getField "total" =
      some (.num (balanceOf balances (activeMint cfg))) ∧
    (∀ orc2 : Oracle,
      orc2.getBalances = .ok [(defaultConfig.testMint, 5), (defaultConfig.mainMint, 7)] →
      (balanceHandler defaultConfig orc2).body.getField "total" = some (.num 5) ∧
      (([(defaultConfig.testMint, 5), (defaultConfig.mainMint, 7)].map Prod.snd).sum
        = (12 : Int)) ∧
      (balanceHandler defaultConfig orc2).body.getField "total" ≠
        some (.num (([(defaultConfig.testMint, 5),
          (defaultConfig.mainMint, 7)].map Prod.snd).sum))) := by
  constructor
  · unfold balanceHandler
    rw [h]
    rfl
  · intro orc2 h2
    have hT : (balanceHandler defaultConfig orc2).body.getField "total" =
        some (.num 5) := by
      unfold balanceHandler
      rw [h2]
      rfl
    refine ⟨hT, by decide, ?_⟩
    rw [hT]
    simp

theorem balance_total_is_active_mint_balance_witness :
    ((balanceHandler defaultConfig
        ⟨.ok [(defaultConfig.testMint, 5), (defaultConfig.mainMint, 7)],
         .ok "", .ok [], .ok (), .ok ("", ""), .ok ()⟩).body.getField "total" =
      some (.num (balanceOf [(defaultConfig.testMint, 5), (defaultConfig.mainMint, 7)]
        (activeMint defaultConfig)))) ∧
    ((balanceHandler defaultConfig
        ⟨.ok [(defaultConfig.testMint, 5), (defaultConfig.mainMint, 7)],
         .ok "", .ok [], .ok (), .ok ("", ""), .ok ()⟩).body.getField "total" =
      some (.num 5)) ∧
    (balanceHandler defaultConfig
        ⟨.ok [(defaultConfig.testMint, 5), (defaultConfig.mainMint, 7)],
         .ok "", .ok [], .ok (), .ok ("", ""), .ok ()⟩).body.getField "total" ≠
      some (.num (([(defaultConfig.testMint, 5),
        (defaultConfig.mainMint, 7)].map Prod.snd).sum)) :=
  ⟨(balance_total_is_active_mint_balance defaultConfig
      ⟨.ok [(defaultConfig.testMint, 5), (defaultConfig.mainMint, 7)],
       .ok "", .ok [], .ok (), .ok ("", ""), .ok ()⟩
      [(defaultConfig.testMint, 5), (defaultConfig.mainMint, 7)] rfl).1,
   ((balance_total_is_active_mint_balance defaultConfig
      ⟨.ok [(defaultConfig.testMint, 5), (defaultConfig.mainMint, 7)],
       .ok "", .ok [], .ok (), .ok ("", ""), .ok ()⟩
      [(defaultConfig.testMint, 5), (defaultConfig.mainMint, 7)] rfl).2
    ⟨.ok [(defaultConfig.testMint, 5), (defaultConfig.mainMint, 7)],
     .ok "", .ok [], .ok (), .ok ("", ""), .ok ()⟩ rfl).1,
   ((balance_total_is_active_mint_balance defaultConfig
      ⟨.ok [(defaultConfig.testMint, 5), (defaultConfig.mainMint, 7)],
       .ok "", .ok [], .ok (), .ok ("", ""), .ok ()⟩
      [(defaultConfig.testMint, 5), (defaultConfig.mainMint, 7)] rfl).2
    ⟨.ok [(defaultConfig.testMint, 5), (defaultConfig.mainMint, 7)],
     .ok "", .ok [], .ok (), .ok ("", ""), .ok ()⟩ rfl).2.2⟩

end Chessu
